import Mathlib

/-
Verification development for the olakai-sdk-python repository.

Shallow embedding of the supervisor (monitor/decorator.py), the batch
queue manager (queueManagerPackage/queue_manager.py), the transport retry
wrapper (client/api.py), the sanitizer (shared/utils.py) and the file
storage adapter (queueManagerPackage/storage/fileStorage.py), together
with theorems settling the frozen claims C1 to C10.

Modelling conventions:
  - Python dataclasses become Lean structures; optional fields become
    Option values.
  - The control call and the user function are oracles of type Except:
    an Except.error value models the Python call raising an exception.
  - Dispatching work to the background executor (fire_and_forget) and
    logging (safe_log, which swallows every exception) are modelled as
    non-raising; dispatches are recorded as events in a trace.
  - Wall-clock readings are passed in as parameters.
-/

namespace Olakai

/-! ## Shared types (shared/types.py) -/

/-- ControlDetails from shared/types.py. -/
structure ControlDetails where
  detectedSensitivity : List String
  isAllowedPersona : Bool
  deriving DecidableEq, Repr

/-- ControlResponse from shared/types.py (message field omitted: unused by
the decorator). -/
structure ControlResponse where
  allowed : Bool
  details : ControlDetails
  deriving DecidableEq, Repr

/-- The subset of MonitorOptions (shared/types.py) read by the wrappers,
with email and chatId already resolved to strings (the static, non-thunk
case of extract_user_info). -/
structure MonitorOptions where
  send_on_function_error : Bool := true
  priority : String := "normal"
  email : String := "anonymous@olakai.ai"
  chatId : String := "123"
  task : Option String := none
  subTask : Option String := none
  deriving DecidableEq, Repr

/-- MonitorPayload from shared/types.py, with prompt and response as
strings (the blocked path always builds string prompts). -/
structure MonitorPayload where
  email : String
  chatId : String
  prompt : String
  response : String
  blocked : Bool := false
  tokens : Nat := 0
  requestTime : Nat := 0
  task : Option String := none
  subTask : Option String := none
  errorMessage : Option String := none
  sensitivity : List String := []
  deriving DecidableEq, Repr

/-! ## Supervisor wrappers (monitor/decorator.py) -/

/-- An event handed to fire_and_forget by a wrapper: either the blocked
MonitorPayload sent with a priority, or one of the deferred monitoring
tasks (handle_success_monitoring / handle_error_monitoring), whose own
payload is built later in the background. -/
inductive DispatchEvent where
  | payload (p : MonitorPayload) (priority : String)
  | successTask
  | errorTask
  deriving DecidableEq, Repr

/-- What a wrapped call does from the caller's point of view. otherErr
names a wrapper-generated Python exception class (one that is neither the
user function's own exception nor OlakaiBlockedError). -/
inductive Outcome (R E : Type) where
  | ret (r : R)
  | blockedErr (details : ControlDetails)
  | fnErr (e : E)
  | otherErr (pythonClass : String)
  deriving DecidableEq, Repr

/-- Whether an outcome is the OlakaiBlockedError being raised. -/
def Outcome.isBlocked {R E : Type} : Outcome R E → Bool
  | .blockedErr _ => true
  | _ => false

/-- One run of a wrapped call: how many times the user function was
invoked, the outcome for the caller, and the dispatched background work. -/
structure RunResult (R E : Type) where
  fnCalls : Nat
  outcome : Outcome R E
  dispatched : List DispatchEvent
  deriving DecidableEq, Repr

/-- The blocked-path MonitorPayload built by both wrappers
(decorator.py lines 115-128 and 346-362): response
"Function execution blocked by Olakai", blocked True, sensitivity taken
from the decision details (with the falsy-empty-list conditional of the
source). -/
def blockedPayload (options : MonitorOptions) (argsStr kwargsStr : String)
    (elapsedMs : Nat) (resp : ControlResponse) : MonitorPayload :=
  { prompt := "Args: " ++ argsStr ++ " \n Kwargs: " ++ kwargsStr
    response := "Function execution blocked by Olakai"
    chatId := options.chatId
    email := options.email
    task := options.task
    subTask := options.subTask
    tokens := 0
    requestTime := elapsedMs
    blocked := true
    sensitivity :=
      if resp.details.detectedSensitivity ≠ [] then
        resp.details.detectedSensitivity
      else [] }

/-- How the body of the outer try of async_wrapped_f exits
(decorator.py lines 92-249). For an exception that is neither
OlakaiBlockedError nor the blocked re-raise, the exit records the binding
state of the local function_error at that moment: none means the local
was never assigned (unbound), some none means it was assigned None, and
some (some e) means it holds the user function's exception. -/
inductive AsyncTryExit (R E : Type) where
  | ret (r : R)
  | blockedExc (details : ControlDetails)
  | exc (functionError : Option (Option E))
  deriving DecidableEq, Repr

/-- The body of the outer try of async_wrapped_f (decorator.py lines
92-249): control decision, blocked branch, execution of the user function,
monitoring dispatches. Returns the exit, the number of calls to the user
function, and the dispatch trace. -/
def asyncTryBody {R E : Type} (options : MonitorOptions)
    (argsStr kwargsStr : String) (elapsedMs : Nat)
    (control : Except Unit ControlResponse) (fn : Except E R) :
    AsyncTryExit R E × Nat × List DispatchEvent :=
  match control with
  | .error _ =>
    -- should_allow_call raised before function_error was assigned
    (.exc none, 0, [])
  | .ok resp =>
    if resp.allowed = false then
      (.blockedExc resp.details, 0,
        [.payload (blockedPayload options argsStr kwargsStr elapsedMs resp) "high"])
    else
      -- function_error = None; result = None; then the execution try
      match fn with
      | .ok r =>
        -- success branch dispatches handle_success_monitoring and returns
        (.ret r, 1, [.successTask])
      | .error e =>
        -- error branch dispatches handle_error_monitoring and re-raises,
        -- exiting the try with function_error bound to the error
        (.exc (some (some e)), 1, [.errorTask])

/-- async_wrapped_f (decorator.py lines 86-262): the outer try body
followed by the except clauses. The except-Exception handler re-raises
function_error when it is bound and not None, raises UnboundLocalError
when the local was never assigned, and otherwise re-invokes the user
function (line 261). -/
def asyncWrapped {R E : Type} (options : MonitorOptions)
    (argsStr kwargsStr : String) (elapsedMs : Nat)
    (control : Except Unit ControlResponse) (fn : Except E R) :
    RunResult R E :=
  match asyncTryBody options argsStr kwargsStr elapsedMs control fn with
  | (.ret r, calls, disp) => ⟨calls, .ret r, disp⟩
  | (.blockedExc d, calls, disp) =>
    -- except OlakaiBlockedError: raise e
    ⟨calls, .blockedErr d, disp⟩
  | (.exc fe, calls, disp) =>
    match fe with
    | none =>
      -- reading the unbound local function_error raises UnboundLocalError
      ⟨calls, .otherErr "UnboundLocalError", disp⟩
    | some (some e) =>
      -- if function_error is not None: raise function_error
      ⟨calls, .fnErr e, disp⟩
    | some none =>
      -- result = await f(*args, **kwargs); return result
      match fn with
      | .ok r => ⟨calls + 1, .ret r, disp⟩
      | .error e => ⟨calls + 1, .fnErr e, disp⟩

/-- The control step of sync_wrapped_f (decorator.py lines 272-337).
hasRunningLoop selects the branch of the try: with a running loop the
control coroutine runs on a worker thread inside the try body, so a
failure is caught by the except ControlServiceError / except Exception
clauses and converted to the fail-closed decision; without a running
loop, asyncio.get_running_loop raises RuntimeError and the control
coroutine runs inside the except-RuntimeError handler, so a failure
raised there propagates uncaught (sibling except clauses do not apply to
exceptions raised inside another handler). -/
def syncControlStep (hasRunningLoop : Bool)
    (control : Except Unit ControlResponse) :
    Except String ControlResponse :=
  if hasRunningLoop then
    match control with
    | .ok resp => .ok resp
    | .error _ =>
      .ok { allowed := false
            details := { detectedSensitivity := [], isAllowedPersona := false } }
  else
    match control with
    | .ok resp => .ok resp
    | .error _ => .error "ControlServiceError"

/-- sync_wrapped_f (decorator.py lines 265-509): control step, blocked
branch, then the try / except / finally around the user function. In the
finally clause the wrapper passes the local result to fire_and_forget;
when the user function raised, that local was never assigned, so the
finally clause raises UnboundLocalError, replacing the in-flight
exception. -/
def syncWrapped {R E : Type} (options : MonitorOptions)
    (argsStr kwargsStr : String) (elapsedMs : Nat) (hasRunningLoop : Bool)
    (control : Except Unit ControlResponse) (fn : Except E R) :
    RunResult R E :=
  match syncControlStep hasRunningLoop control with
  | .error cls => ⟨0, .otherErr cls, []⟩
  | .ok resp =>
    if resp.allowed = false then
      ⟨0, .blockedErr resp.details,
        [.payload (blockedPayload options argsStr kwargsStr elapsedMs resp) "high"]⟩
    else
      match fn with
      | .ok r =>
        -- finally: fire_and_forget(handle_success_monitoring, ..., result, ...)
        ⟨1, .ret r, [.successTask]⟩
      | .error _ =>
        -- except: optionally dispatch handle_error_monitoring; raise error;
        -- finally: evaluating the unassigned local result raises
        ⟨1, .otherErr "UnboundLocalError",
          if options.send_on_function_error then [.errorTask] else []⟩

/-! ## Batch queue manager (queueManagerPackage/queue_manager.py) -/

/-- BatchRequest from client/types.py, over an abstract payload type. -/
structure BatchRequest (P : Type) where
  id : String
  payload : List P
  timestamp : Nat
  retries : Nat := 0
  priority : String := "normal"
  deriving DecidableEq, Repr

/-- What add_to_queue does after persisting: either it awaits
_process_batch_queue (an immediate drain) or it only calls
_schedule_batch_processing. -/
inductive EnqueueAction where
  | drainNow
  | scheduled
  deriving DecidableEq, Repr

/-- The reversed scan of add_to_queue (queue_manager.py lines 93-105) on
the already-reversed queue: the first batch (in reversed order) with room
and the requested retry count absorbs the payload; a high-priority
enqueue upgrades that batch's priority. Returns none when no batch
matches. -/
def coalesce {P : Type} (batchSize retries : Nat) (p : P) (isHigh : Bool) :
    List (BatchRequest P) → Option (List (BatchRequest P))
  | [] => none
  | b :: rest =>
    if b.payload.length < batchSize ∧ b.retries = retries then
      some ({ b with
              payload := b.payload ++ [p]
              priority := if isHigh then "high" else b.priority } :: rest)
    else
      (coalesce batchSize retries p isHigh rest).map (b :: ·)

/-- add_to_queue (queue_manager.py lines 62-121), as a pure function of
the queue. newId and now stand for the generated batch id and the clock
reading. Returns the new queue together with the action taken after the
persist: the empty-queue branch only schedules, the other two branches
drain immediately exactly when the requested priority is high. -/
def add_to_queue {P : Type} (batchSize : Nat) (newId : String) (now : Nat)
    (queue : List (BatchRequest P)) (p : P) (retries : Nat)
    (priority : String) : List (BatchRequest P) × EnqueueAction :=
  if queue.isEmpty then
    ([⟨newId, [p], now, retries, priority⟩], .scheduled)
  else
    match coalesce batchSize retries p (priority = "high") queue.reverse with
    | some revQueue =>
      (revQueue.reverse, if priority = "high" then .drainNow else .scheduled)
    | none =>
      (queue ++ [⟨newId, [p], now, retries, priority⟩],
        if priority = "high" then .drainNow else .scheduled)

/-- Total number of payloads held across a queue of batches. -/
def totalPayloads {P : Type} (queue : List (BatchRequest P)) : Nat :=
  (queue.map (fun b => b.payload.length)).sum

/-- One per-item entry of the monitoring response (MonitoringResponse in
shared/types.py): index into the submitted batch and a success flag. -/
structure MonitoringResponse where
  index : Nat
  success : Bool
  deriving DecidableEq, Repr

/-- APIResponse from shared/types.py (counts and message omitted: the
queue manager reads only success and results; an absent results field is
the empty list, which Python truthiness conflates with it). -/
structure APIResponse where
  success : Bool
  results : List MonitoringResponse
  deriving DecidableEq, Repr

/-- The reconciliation loop of _process_batch_queue (queue_manager.py
lines 272-276): walk the results, collecting payloads at failed indices;
an out-of-range index is Python's IndexError, which aborts the loop into
the except path. -/
def collectFailed {P : Type} (payloads : List P) :
    List MonitoringResponse → Except Unit (List P)
  | [] => .ok []
  | r :: rs =>
    if r.success then collectFailed payloads rs
    else
      match payloads.get? r.index with
      | some p =>
        match collectFailed payloads rs with
        | .ok tl => .ok (p :: tl)
        | .error u => .error u
      | none => .error ()

/-- The response-handling part of _process_batch_queue (queue_manager.py
lines 251-287) for a drained head batch: rest is the queue after the pop,
current the popped batch (with non-empty payload), resp the transport
result. On overall success the batch is dropped; otherwise a new batch
with retries incremented keeps the failed payloads (all of them when the
results list is empty) and is appended when non-empty. An Except.error
result is the IndexError path (handled by the generic except clause of
the source). -/
def reconcile {P : Type} (newId : String) (now : Nat)
    (rest : List (BatchRequest P)) (current : BatchRequest P)
    (resp : APIResponse) : Except Unit (List (BatchRequest P)) :=
  if resp.success then .ok rest
  else
    match
      (if resp.results ≠ [] then collectFailed current.payload resp.results
       else .ok current.payload) with
    | .error u => .error u
    | .ok newPayload =>
      .ok (if newPayload.isEmpty then rest
           else
             rest ++ [⟨newId, newPayload, now, current.retries + 1, current.priority⟩])

/-- Serialized length of one json.dumps list, given the serialized length
of each element: two bracket characters, the elements, and the
two-character default separator between consecutive elements. -/
def serLen {P : Type} (itemLen : P → Nat) (l : List P) : Nat :=
  match l with
  | [] => 2
  | _ :: _ => 2 + (l.map itemLen).sum + 2 * (l.length - 1)

/-- The eviction loop of _persist_queue (queue_manager.py lines 185-188):
pop the oldest batch while the serialized queue still exceeds the target
and the queue is non-empty. -/
def evictLoop {P : Type} (itemLen : P → Nat) (target : Nat) :
    List P → List P
  | [] => []
  | x :: xs =>
    if serLen itemLen (x :: xs) > target then evictLoop itemLen target xs
    else x :: xs

/-- Model of _persist_queue (queue_manager.py lines 158-193):
serialize the queue; when the size exceeds maxStorageSize, evict whole
batches oldest-first until the size is no more than the 80 percent target
(int(max_size * 0.8), modelled as 4 * maxSize / 5 in integers); write the
re-serialized queue. Returns the kept queue and the written blob length. -/
def persist_queue {P : Type} (itemLen : P → Nat) (maxSize : Nat)
    (queue : List P) : List P × Nat :=
  let s := serLen itemLen queue
  if s > maxSize then
    let kept := evictLoop itemLen (4 * maxSize / 5) queue
    (kept, serLen itemLen kept)
  else
    (queue, s)

/-! ## Queue manager singleton (queue_manager.py lines 303-327,
client/client.py lines 49-63) -/

/-- The SDKConfig fields the queue manager reads (client/types.py). -/
structure SDKConfig where
  apiKey : String := ""
  isBatchingEnabled : Bool := false
  batchSize : Nat := 10
  batchTimeout : Nat := 5000
  retries : Nat := 3
  timeout : Nat := 20000
  enableStorage : Bool := true
  maxStorageSize : Nat := 1000000
  deriving DecidableEq, Repr

/-- QueueDependencies from shared/types.py: the config handed over by the
client that constructed them (the send_with_retry callable is implicit in
the transport model). -/
structure QueueDependencies where
  config : SDKConfig
  deriving DecidableEq, Repr

/-- The state a QueueManager instance owns (queue_manager.py lines
21-31). -/
structure QueueManager (P : Type) where
  dependencies : QueueDependencies
  batch_queue : List (BatchRequest P)
  deriving DecidableEq, Repr

/-- init_queue_manager (queue_manager.py lines 306-327) acting on the
module-level _queue_manager global, passed and returned explicitly: when
an instance already exists it is returned unchanged and the supplied
dependencies are dropped; otherwise a fresh manager is constructed from
the supplied dependencies (initial load abstracted to the loaded queue). -/
def init_queue_manager {P : Type} (state : Option (QueueManager P))
    (deps : QueueDependencies) (loaded : List (BatchRequest P)) :
    QueueManager P × Option (QueueManager P) :=
  match state with
  | some qm => (qm, some qm)
  | none =>
    let qm : QueueManager P := ⟨deps, loaded⟩
    (qm, some qm)

/-- The batchSize that governs coalescing for a given manager instance:
add_to_queue reads it from self.dependencies.get_config(). -/
def QueueManager.effectiveBatchSize {P : Type} (qm : QueueManager P) : Nat :=
  qm.dependencies.config.batchSize

/-! ## Transport retry wrapper (client/api.py lines 104-134) -/

/-- The two exception classes caught by the retry loop: APITimeoutError
and APIResponseError (make_api_call classifies HTTP and network failures
as APIResponseError). -/
inductive TransportError where
  | timeout
  | response
  deriving DecidableEq, Repr

/-- The terminal error of send_with_retry: RetryExhaustedError wrapping
the last underlying cause. -/
inductive RetryError where
  | exhausted (last : TransportError)
  deriving DecidableEq, Repr

/-- One run of the retry loop: the value returned or the terminal error,
the number of make_api_call attempts, and the backoff delays slept, in
order, in milliseconds. -/
structure RetryRun (R : Type) where
  result : Except RetryError R
  calls : Nat
  delays : List Nat
  deriving Repr

/-- The backoff of client/api.py line 128: min(1000 * 2 ** attempt,
30000) milliseconds. -/
def backoffDelay (attempt : Nat) : Nat :=
  min (1000 * 2 ^ attempt) 30000

/-- The body of the retry loop of send_with_retry, at attempt index a
with leftAfter attempts remaining after this one. attempts is the oracle
for make_api_call: an Except.error is a raised APITimeoutError or
APIResponseError. -/
def retryGo {R : Type} (attempts : Nat → Except TransportError R)
    (a : Nat) : Nat → RetryRun R
  | 0 =>
    match attempts a with
    | .ok r => ⟨.ok r, 1, []⟩
    | .error e => ⟨.error (.exhausted e), 1, []⟩
  | leftAfter + 1 =>
    match attempts a with
    | .ok r => ⟨.ok r, 1, []⟩
    | .error _ =>
      let rest := retryGo attempts (a + 1) leftAfter
      ⟨rest.result, rest.calls + 1, backoffDelay a :: rest.delays⟩

/-- send_with_retry (client/api.py lines 104-134): up to retries + 1
attempts starting at attempt index 0 (the source clamps a negative
configured retries to 0, which on Nat is the identity). -/
def send_with_retry {R : Type} (retries : Nat)
    (attempts : Nat → Except TransportError R) : RetryRun R :=
  retryGo attempts 0 retries

/-! ## Sanitization (shared/utils.py lines 88-119) -/

/-- SanitizePattern from shared/types.py: all three fields optional. -/
structure SanitizePattern where
  pattern : Option String := none
  key : Option String := none
  replacement : Option String := none
  deriving DecidableEq, Repr

/-- Python truthiness of an optional string: None and the empty string
are falsy. -/
def strTruthy : Option String → Bool
  | none => false
  | some s => s ≠ ""

/-- The replacement string used by sanitize_data:
pattern.replacement or "[REDACTED]". -/
def replacementOf (p : SanitizePattern) : String :=
  match p.replacement with
  | some r => if r ≠ "" then r else "[REDACTED]"
  | none => "[REDACTED]"

/-- Whether a character list starts with a given pattern. -/
def listStartsWith : List Char → List Char → Bool
  | _, [] => true
  | [], _ :: _ => false
  | a :: as, b :: bs => a = b && listStartsWith as bs

/-- Whether a pattern occurs somewhere in a character list. -/
def listOccurs (pat : List Char) : List Char → Bool
  | [] => pat.isEmpty
  | c :: cs => listStartsWith (c :: cs) pat || listOccurs pat cs

/-- Python's `needle in haystack` substring test. -/
def strContains (haystack needle : String) : Bool :=
  listOccurs needle.toList haystack.toList

/-- The loop body of sanitize_data (shared/utils.py lines 106-113) over
the remaining patterns. reSub is the semantics of re.sub for a given
pattern, replacement and subject. A pattern whose regex field is truthy
is substituted and the function returns at once; a key-form pattern whose
key occurs in the containing key attempts re.sub with the falsy regex
field, which for None raises TypeError into the except clause that
returns "[SANITIZED]"; a key-form pattern with a non-matching key returns
the data unchanged; a pattern with both fields falsy falls through to the
next iteration. -/
def sanitizeLoop (reSub : String → String → String → String)
    (data : String) (dataKey : Option String) :
    List SanitizePattern → String
  | [] => data
  | p :: rest =>
    if strTruthy p.pattern then
      reSub (p.pattern.getD "") (replacementOf p) data
    else if strTruthy p.key then
      if strTruthy dataKey ∧ strContains (dataKey.getD "") (p.key.getD "") then
        match p.pattern with
        | none => "[SANITIZED]"
        | some s => reSub s (replacementOf p) data
      else data
    else sanitizeLoop reSub data dataKey rest

/-- sanitize_data (shared/utils.py lines 88-119): falsy pattern lists
pass the data through, otherwise the loop above runs. -/
def sanitize_data (reSub : String → String → String → String)
    (data : String) (dataKey : Option String)
    (patterns : Option (List SanitizePattern)) : String :=
  match patterns with
  | none => data
  | some [] => data
  | some ps => sanitizeLoop reSub data dataKey ps

/-- Modelled from the spec, for comparison with sanitize_data: apply
every configured pattern in configuration order to the value, each
regex-form pattern substituting into the accumulated string, each
key-form pattern replacing the value with its replacement only when the
containing key matches. -/
def sanitizeDataSpec (reSub : String → String → String → String)
    (data : String) (dataKey : Option String)
    (patterns : List SanitizePattern) : String :=
  patterns.foldl
    (fun acc p =>
      if strTruthy p.pattern then
        reSub (p.pattern.getD "") (replacementOf p) acc
      else if strTruthy p.key then
        if strTruthy dataKey ∧ strContains (dataKey.getD "") (p.key.getD "") then
          replacementOf p
        else acc
      else acc)
    data

/-! ## File storage (queueManagerPackage/storage/fileStorage.py lines
45-58) -/

/-- The filesystem operations set_item performs, plus the rename the spec
describes (so the claimed behaviour is expressible over the same
alphabet). Opening a file in mode w truncates it. -/
inductive FsOp where
  | openTrunc (path : String)
  | write (path : String) (content : String)
  | rename (src dst : String)
  deriving DecidableEq, Repr

/-- FileStorageService.set_item: open base_path / (key + ".json") in mode
w (truncating it) and write the value into it, directly at the
destination path. -/
def set_item_ops (key value : String) : List FsOp :=
  [.openTrunc (key ++ ".json"), .write (key ++ ".json") value]

/-- A filesystem as an association list from path to content. -/
def Fs := List (String × String)

/-- Read a path. -/
def Fs.read (fs : Fs) (path : String) : Option String :=
  (fs.find? (fun e => e.1 = path)).map (·.2)

/-- Store content at a path, replacing any previous entry. -/
def Fs.store (fs : Fs) (path content : String) : Fs :=
  (path, content) :: fs.filter (fun e => e.1 ≠ path)

/-- Whether an operation is a rename. -/
def FsOp.isRename : FsOp → Bool
  | .rename _ _ => true
  | _ => false

/-- Effect of one filesystem operation. -/
def FsOp.apply (fs : Fs) : FsOp → Fs
  | .openTrunc path => fs.store path ""
  | .write path content => fs.store path content
  | .rename src dst =>
    match fs.read src with
    | some c => Fs.store (fs.filter (fun e => e.1 ≠ src)) dst c
    | none => fs

/-- Every filesystem state reached while running a sequence of
operations, the initial state included. -/
def runStates (fs : Fs) : List FsOp → List Fs
  | [] => [fs]
  | op :: ops => fs :: runStates (op.apply fs) ops

/-- The final filesystem after a sequence of operations. -/
def runOps (fs : Fs) (ops : List FsOp) : Fs :=
  ops.foldl FsOp.apply fs

/-- The claim's atomic-replace discipline over an operation trace: the
value first goes to a temporary file distinct from the destination, which
is later renamed over the destination, and no operation writes or
truncates the destination directly. -/
def atomicReplaceTrace (ops : List FsOp) (dest value : String) : Prop :=
  (∃ tmp, tmp ≠ dest ∧
    FsOp.write tmp value ∈ ops ∧ FsOp.rename tmp dest ∈ ops) ∧
  (∀ op ∈ ops, op ≠ FsOp.write dest value ∧ op ≠ FsOp.openTrunc dest)

/-- Replace every occurrence of a pattern in a character list, with fuel
bounding the recursion by the subject length. -/
def listReplace (pat repl : List Char) : Nat → List Char → List Char
  | 0, s => s
  | _ + 1, [] => []
  | fuel + 1, c :: cs =>
    if listStartsWith (c :: cs) pat && !pat.isEmpty then
      repl ++ listReplace pat repl fuel (List.drop (pat.length - 1) cs)
    else c :: listReplace pat repl fuel cs

/-- The literal-substring semantics of re.sub used to instantiate the
reSub parameter on concrete inputs: replace every occurrence of the
pattern in the subject. -/
def reSubLit (pat repl subject : String) : String :=
  ⟨listReplace pat.toList repl.toList subject.toList.length subject.toList⟩

/-! ## Helper lemmas -/

/-- The falsy-empty-list conditional on sensitivity in the blocked
payload is the identity. -/
theorem sensitivity_ite_eq (d : List String) :
    (if d ≠ [] then d else []) = d := by
  by_cases h : d = [] <;> simp [h]

/-- A missing optional string is falsy. -/
theorem strTruthy_none : strTruthy none = false := rfl

/-! ## C1: gating of the user function and the blocked outcome -/

/-- C1, counterexample. In the async wrapper a failing control step
leaves the user function uninvoked although the control decision was not
allowed=false: no OlakaiBlocked error is raised and no blocked payload is
dispatched (the except-Exception handler raises UnboundLocalError
instead), refuting the claimed zero-times-iff-blocked equivalence as
stated. -/
theorem async_control_error_zero_calls_not_blocked :
    (asyncWrapped (R := Nat) (E := String) {} "a" "k" 0 (.error ()) (.ok 42)).fnCalls = 0 ∧
    (asyncWrapped (R := Nat) (E := String) {} "a" "k" 0 (.error ()) (.ok 42)).outcome.isBlocked = false ∧
    (asyncWrapped (R := Nat) (E := String) {} "a" "k" 0 (.error ()) (.ok 42)).dispatched = [] :=
  ⟨rfl, rfl, rfl⟩

/-- C1, amended: whenever the control step yields a decision (it returns
a ControlResponse, possibly the fail-closed conversion of the sync
running-loop path), the user function is invoked at most once and zero
times exactly when the decision was allowed=false, and in that blocked
case both wrappers raise OlakaiBlocked carrying the decision's details
and dispatch, at high priority, a MonitorPayload with blocked=true,
response "Function execution blocked by Olakai" and sensitivity equal to
details.detectedSensitivity. -/
theorem supervised_call_gating_decision {R E : Type}
    (options : MonitorOptions) (argsStr kwargsStr : String) (elapsedMs : Nat)
    (hasRunningLoop : Bool) (resp : ControlResponse) (fn : Except E R) :
    (asyncWrapped options argsStr kwargsStr elapsedMs (.ok resp) fn).fnCalls ≤ 1 ∧
    (syncWrapped options argsStr kwargsStr elapsedMs hasRunningLoop (.ok resp) fn).fnCalls ≤ 1 ∧
    ((asyncWrapped options argsStr kwargsStr elapsedMs (.ok resp) fn).fnCalls = 0 ↔
      resp.allowed = false) ∧
    ((syncWrapped options argsStr kwargsStr elapsedMs hasRunningLoop (.ok resp) fn).fnCalls = 0 ↔
      resp.allowed = false) ∧
    (resp.allowed = false →
      (asyncWrapped options argsStr kwargsStr elapsedMs (.ok resp) fn).outcome =
        .blockedErr resp.details ∧
      (syncWrapped options argsStr kwargsStr elapsedMs hasRunningLoop (.ok resp) fn).outcome =
        .blockedErr resp.details ∧
      (asyncWrapped options argsStr kwargsStr elapsedMs (.ok resp) fn).dispatched =
        [.payload (blockedPayload options argsStr kwargsStr elapsedMs resp) "high"] ∧
      (syncWrapped options argsStr kwargsStr elapsedMs hasRunningLoop (.ok resp) fn).dispatched =
        [.payload (blockedPayload options argsStr kwargsStr elapsedMs resp) "high"] ∧
      (blockedPayload options argsStr kwargsStr elapsedMs resp).blocked = true ∧
      (blockedPayload options argsStr kwargsStr elapsedMs resp).response =
        "Function execution blocked by Olakai" ∧
      (blockedPayload options argsStr kwargsStr elapsedMs resp).sensitivity =
        resp.details.detectedSensitivity) := by
  have hsens := sensitivity_ite_eq resp.details.detectedSensitivity
  cases hA : resp.allowed <;>
    cases fn <;>
      simp [asyncWrapped, asyncTryBody, syncWrapped, syncControlStep,
        blockedPayload, hA, hsens]

/-- C1, witness for the amended theorem at a concrete blocked decision. -/
theorem supervised_call_gating_decision_witness :
    (asyncWrapped (R := Nat) (E := String) {} "a" "k" 0
        (.ok ⟨false, ⟨["pii"], false⟩⟩) (.ok 1)).fnCalls = 0 ∧
    (asyncWrapped (R := Nat) (E := String) {} "a" "k" 0
        (.ok ⟨false, ⟨["pii"], false⟩⟩) (.ok 1)).outcome =
      .blockedErr ⟨["pii"], false⟩ ∧
    (blockedPayload {} "a" "k" 0 ⟨false, ⟨["pii"], false⟩⟩).sensitivity = ["pii"] := by
  have h := supervised_call_gating_decision (R := Nat) (E := String)
    {} "a" "k" 0 false ⟨false, ⟨["pii"], false⟩⟩ (.ok 1)
  exact ⟨h.2.2.1.mpr rfl, (h.2.2.2.2 rfl).1, (h.2.2.2.2 rfl).2.2.2.2.2.2⟩

/-! ## C2: propagation of the user function's result and exception -/

/-- C2: the sync wrapper does not re-raise the user function's original
exception. Its finally clause passes the local result to fire_and_forget;
when the user function raised, that local was never assigned, so the
caller receives UnboundLocalError instead of the original error, although
the control decision had allowed the call. -/
theorem sync_wrapper_masks_function_error :
    syncWrapped (R := Nat) (E := String) {} "a" "k" 0 false
        (.ok ⟨true, ⟨[], true⟩⟩) (.error "ValueError: boom") =
      ⟨1, .otherErr "UnboundLocalError", [.errorTask]⟩ ∧
    (syncWrapped (R := Nat) (E := String) {} "a" "k" 0 false
        (.ok ⟨true, ⟨[], true⟩⟩) (.error "ValueError: boom")).outcome ≠
      .fnErr "ValueError: boom" :=
  ⟨rfl, by decide⟩

/-! ## C3: fail-closed gating on control failure -/

/-- C3: the fail-closed conversion of a control failure only happens in
the sync wrapper when a running event loop forced the control coroutine
onto a worker thread. In the async wrapper a control failure becomes an
UnboundLocalError, and in the sync wrapper without a running loop the
ControlServiceError raised inside the except-RuntimeError handler
propagates past the sibling except clauses; in neither of these two paths
does the call produce the blocked outcome (the user function is still
never executed). -/
theorem control_failure_not_fail_closed :
    asyncWrapped (R := Nat) (E := String) {} "a" "k" 0 (.error ()) (.ok 42) =
      ⟨0, .otherErr "UnboundLocalError", []⟩ ∧
    syncWrapped (R := Nat) (E := String) {} "a" "k" 0 false (.error ()) (.ok 42) =
      ⟨0, .otherErr "ControlServiceError", []⟩ ∧
    (syncWrapped (R := Nat) (E := String) {} "a" "k" 0 true (.error ()) (.ok 42)).outcome =
      .blockedErr ⟨[], false⟩ :=
  ⟨rfl, rfl, rfl⟩

/-! ## C4: reconciliation of a partially failed batch -/

/-- C4, counterexample. A transport response whose results array marks
index 0 as failed (so the failed index set is non-empty) but whose
overall success flag is true makes _process_batch_queue drop the batch
entirely: the queue after reconciliation is empty and contains no new
batch holding the failed payload, contradicting the claim as stated. -/
theorem reconcile_success_flag_drops_failed_results :
    reconcile (P := Nat) "id" 7 [] ⟨"b", [5], 3, 0, "normal"⟩ ⟨true, [⟨0, false⟩]⟩ =
      .ok [] :=
  rfl

/-- The reconciliation loop on an index-aligned results array collects
exactly the payloads at failed indices, in index order. -/
theorem collectFailed_range' {P : Type} (payloads : List P) (succ : Nat → Bool) :
    ∀ n k, k + n ≤ payloads.length →
      collectFailed payloads ((List.range' k n).map (fun i => ⟨i, succ i⟩)) =
        .ok ((List.range' k n).filterMap
          (fun i => if succ i then none else payloads.get? i)) := by
  intro n
  induction n with
  | zero => intro k _; simp [collectFailed]
  | succ m ih =>
    intro k hk
    have hlt : k < payloads.length := by omega
    have hget : ∃ p, payloads.get? k = some p := by
      rw [List.get?_eq_get hlt]; exact ⟨_, rfl⟩
    obtain ⟨p, hp⟩ := hget
    have hrest := ih (k + 1) (by omega)
    cases hs : succ k
    · rw [List.range'_succ, List.map_cons]
      simp only [collectFailed, hs, Bool.false_eq_true, if_false]
      rw [hp, hrest]
      have hp' : payloads[k]? = some p := by simpa using hp
      simp [List.filterMap_cons, hs, hp']
    · simp [List.range'_succ, collectFailed, hs, hrest]

/-- C4, amended: for every drained batch whose transport response reports
overall failure (success=false) and carries an index-aligned results
array over the batch payloads, reconciliation appends exactly one new
batch holding the payloads at the failed indices in order, with retries
incremented and the priority preserved; payloads at successful indices
are not re-queued, and when no index failed the drained batch is dropped
with nothing appended. (The source only rebuilds a batch when the
response's overall success flag is false, and treats an empty results
array like an absent one.) -/
theorem reconcile_partial_failure {P : Type} (newId : String) (now : Nat)
    (rest : List (BatchRequest P)) (current : BatchRequest P)
    (succ : Nat → Bool) (resp : APIResponse)
    (hpay : current.payload ≠ [])
    (hfail : resp.success = false)
    (hres : resp.results =
      (List.range current.payload.length).map (fun i => ⟨i, succ i⟩)) :
    reconcile newId now rest current resp =
      .ok (let failed := (List.range current.payload.length).filterMap
            (fun i => if succ i then none else current.payload.get? i)
           if failed.isEmpty then rest
           else rest ++ [⟨newId, failed, now, current.retries + 1, current.priority⟩]) := by
  have hn : current.payload.length ≠ 0 := by
    intro h
    exact hpay (List.eq_nil_of_length_eq_zero h)
  have hne : resp.results ≠ [] := by
    rw [hres]
    simp only [ne_eq, List.map_eq_nil_iff, List.range_eq_nil]
    exact hn
  have hcollect := collectFailed_range' current.payload succ
    current.payload.length 0 (by omega)
  rw [← List.range_eq_range'] at hcollect
  simp only [reconcile, hfail, Bool.false_eq_true, if_false, hne, if_true, ite_not]
  rw [hres] at hne ⊢
  simp only [hne, if_neg, hcollect]

/-- C4, witness for the amended theorem: a three-payload batch whose
response marks indices 1 and 2 as failed is rebuilt as one batch holding
payloads 6 and 7 with retries incremented from 2 to 3 and priority kept. -/
theorem reconcile_partial_failure_witness :
    reconcile (P := Nat) "id" 7 [] ⟨"b", [5, 6, 7], 0, 2, "low"⟩
        ⟨false, [⟨0, true⟩, ⟨1, false⟩, ⟨2, false⟩]⟩ =
      .ok [⟨"id", [6, 7], 7, 3, "low"⟩] := by
  have h := reconcile_partial_failure (P := Nat) "id" 7 []
    ⟨"b", [5, 6, 7], 0, 2, "low"⟩ (fun i => i = 0)
    ⟨false, [⟨0, true⟩, ⟨1, false⟩, ⟨2, false⟩]⟩ (by decide) rfl (by decide)
  exact h.trans rfl

/-! ## C5: immediate drain versus scheduled drain on enqueue -/

/-- A successful coalescing scan adds exactly one payload to the queue. -/
theorem coalesce_totalPayloads {P : Type} (batchSize retries : Nat) (p : P)
    (isHigh : Bool) :
    ∀ l l', coalesce batchSize retries p isHigh l = some l' →
      totalPayloads l' = totalPayloads l + 1 := by
  intro l
  induction l with
  | nil => intro l' h; simp [coalesce] at h
  | cons b rest ih =>
    intro l' h
    by_cases hb : b.payload.length < batchSize ∧ b.retries = retries
    · simp only [coalesce, if_pos hb, Option.some_inj] at h
      subst h
      simp [totalPayloads]
      omega
    · simp only [coalesce, if_neg hb, Option.map_eq_some'] at h
      obtain ⟨tl, htl, rfl⟩ := h
      simp only [totalPayloads, List.map_cons, List.sum_cons] at ih ⊢
      rw [ih tl htl]
      omega

/-- C5, counterexample. A high-priority payload enqueued into an empty
queue starts the first batch, which with batchSize 1 is also immediately
full; the claim requires an immediate drain, but add_to_queue's
empty-queue branch only schedules one. -/
theorem add_to_queue_high_priority_first_batch_only_scheduled :
    add_to_queue (P := Nat) 1 "id" 7 [] 5 0 "high" =
      ([⟨"id", [5], 7, 0, "high"⟩], .scheduled) :=
  rfl

/-- C5, amended: after the payload is placed and the queue persisted, a
drain is performed immediately exactly when the requested priority is
high and the queue was non-empty before the enqueue; in every other case
(including a batch that just became full, and the first payload of an
empty queue even at high priority) the drain is only scheduled. The
enqueue always adds exactly one payload to the queue. -/
theorem add_to_queue_drain_condition {P : Type} (batchSize : Nat)
    (newId : String) (now : Nat) (queue : List (BatchRequest P)) (p : P)
    (retries : Nat) (priority : String) :
    ((add_to_queue batchSize newId now queue p retries priority).2 =
        .drainNow ↔ (priority = "high" ∧ queue ≠ [])) ∧
    totalPayloads (add_to_queue batchSize newId now queue p retries priority).1 =
      totalPayloads queue + 1 := by
  by_cases hq : queue.isEmpty
  · rw [List.isEmpty_iff] at hq
    subst hq
    simp [add_to_queue, totalPayloads]
  · have hne : queue ≠ [] := by
      intro h; rw [h] at hq; exact hq rfl
    have hqf : queue.isEmpty = false := by
      cases h : queue.isEmpty
      · rfl
      · exact absurd h hq
    unfold add_to_queue
    simp only [hqf, Bool.false_eq_true, if_false]
    cases hco : coalesce batchSize retries p (priority = "high") queue.reverse with
    | none =>
      constructor
      · by_cases hpr : priority = "high" <;> simp [hpr, hne]
      · simp [totalPayloads]
    | some revQ =>
      constructor
      · by_cases hpr : priority = "high" <;> simp [hpr, hne]
      · have hc := coalesce_totalPayloads batchSize retries p
          (priority = "high") queue.reverse revQ hco
        have hrev : totalPayloads revQ.reverse = totalPayloads revQ := by
          simp [totalPayloads, List.map_reverse, List.sum_reverse]
        have hrev2 : totalPayloads queue.reverse = totalPayloads queue := by
          simp [totalPayloads, List.map_reverse, List.sum_reverse]
        simp only []
        omega

/-! ## C6: retry wrapper of the transport -/

/-- An attempt that succeeds returns at once, whatever budget remains. -/
theorem retryGo_ok {R : Type} (attempts : Nat → Except TransportError R)
    (a : Nat) (v : R) (h : attempts a = .ok v) :
    ∀ leftAfter, retryGo attempts a leftAfter = ⟨.ok v, 1, []⟩ := by
  intro leftAfter
  cases leftAfter <;> simp [retryGo, h]

/-- The retry loop never makes more than leftAfter + 1 attempts. -/
theorem retryGo_calls_le {R : Type} (attempts : Nat → Except TransportError R) :
    ∀ leftAfter a, (retryGo attempts a leftAfter).calls ≤ leftAfter + 1 := by
  intro leftAfter
  induction leftAfter with
  | zero => intro a; cases h : attempts a <;> simp [retryGo, h]
  | succ m ih =>
    intro a
    cases h : attempts a with
    | ok v => simp [retryGo, h]
    | error e =>
      simp only [retryGo, h]
      have := ih (a + 1)
      omega

/-- When the first success is k attempts into the budget, the loop stops
there, having slept the backoff of each preceding failed attempt. -/
theorem retryGo_first_success {R : Type}
    (attempts : Nat → Except TransportError R) (v : R) :
    ∀ k a leftAfter, k ≤ leftAfter →
      (∀ j, j < k → (attempts (a + j)).isOk = false) →
      attempts (a + k) = .ok v →
      retryGo attempts a leftAfter =
        ⟨.ok v, k + 1, (List.range' a k).map backoffDelay⟩ := by
  intro k
  induction k with
  | zero =>
    intro a leftAfter _ _ hk
    simp only [Nat.add_zero] at hk
    simp [retryGo_ok attempts a v hk]
  | succ m ih =>
    intro a leftAfter hle hfail hk
    have ha : ∃ e, attempts a = .error e := by
      have h0 := hfail 0 (by omega)
      rw [Nat.add_zero] at h0
      cases h : attempts a with
      | ok w => rw [h] at h0; simp [Except.isOk, Except.toBool] at h0
      | error e => exact ⟨e, rfl⟩
    obtain ⟨e, he⟩ := ha
    obtain ⟨n, rfl⟩ : ∃ n, leftAfter = n + 1 := ⟨leftAfter - 1, by omega⟩
    have hrest := ih (a + 1) n (by omega)
      (fun j hj => by
        have := hfail (j + 1) (by omega)
        rwa [show a + 1 + j = a + (j + 1) from by omega])
      (by rwa [show a + 1 + m = a + (m + 1) from by omega])
    simp [retryGo, he, hrest, List.range'_succ]

/-- When every attempt in the budget fails, the loop exhausts it and
ends with the last attempt's error. -/
theorem retryGo_all_fail {R : Type}
    (attempts : Nat → Except TransportError R) (errF : Nat → TransportError) :
    ∀ leftAfter a, (∀ j, j ≤ leftAfter → attempts (a + j) = .error (errF (a + j))) →
      retryGo attempts a leftAfter =
        ⟨.error (.exhausted (errF (a + leftAfter))), leftAfter + 1,
          (List.range' a leftAfter).map backoffDelay⟩ := by
  intro leftAfter
  induction leftAfter with
  | zero =>
    intro a hf
    have := hf 0 (by omega)
    rw [Nat.add_zero] at this
    simp [retryGo, this]
  | succ m ih =>
    intro a hf
    have ha := hf 0 (by omega)
    rw [Nat.add_zero] at ha
    have hrest := ih (a + 1) (fun j hj => by
      have := hf (j + 1) (by omega)
      rwa [show a + 1 + j = a + (j + 1) from by omega])
    rw [show a + 1 + m = a + (m + 1) from by omega] at hrest
    simp [retryGo, ha, hrest, List.range'_succ]

/-- C6: send_with_retry makes at most retries + 1 attempts of
make_api_call; when the first k attempts fail and attempt k succeeds
(k within budget), it returns that attempt's result after exactly k + 1
calls, having slept min(1000 * 2 ^ a, 30000) milliseconds after each
failed attempt a; and when every attempt in the budget fails, it makes
exactly retries + 1 calls and ends with RetryExhaustedError wrapping the
last attempt's underlying error. -/
theorem send_with_retry_spec {R : Type} (retries : Nat)
    (attempts : Nat → Except TransportError R) (k : Nat) (v : R)
    (errF : Nat → TransportError) :
    ((send_with_retry retries attempts).calls ≤ retries + 1) ∧
    (k ≤ retries → (∀ j, j < k → (attempts j).isOk = false) →
      attempts k = .ok v →
      send_with_retry retries attempts =
        ⟨.ok v, k + 1, (List.range k).map backoffDelay⟩) ∧
    ((∀ j, j ≤ retries → attempts j = .error (errF j)) →
      send_with_retry retries attempts =
        ⟨.error (.exhausted (errF retries)), retries + 1,
          (List.range retries).map backoffDelay⟩) := by
  refine ⟨retryGo_calls_le attempts retries 0, ?_, ?_⟩
  · intro hk hfail hsucc
    have h := retryGo_first_success attempts v k 0 retries hk
      (fun j hj => by simpa using hfail j hj) (by simpa using hsucc)
    rwa [List.range_eq_range']
  · intro hf
    have h := retryGo_all_fail attempts errF retries 0
      (fun j hj => by simpa using hf j hj)
    rw [List.range_eq_range']
    simpa using h

/-- C6, witness: with retries = 3 and attempts 0 and 1 timing out before
attempt 2 succeeds, send_with_retry returns the success after three
calls and backoffs of 1000 ms and 2000 ms; and with retries = 2 and
every attempt failing, it exhausts three calls and wraps the last
error. -/
theorem send_with_retry_spec_witness :
    send_with_retry (R := Nat) 3
        (fun a => if a = 2 then .ok 9 else .error .timeout) =
      ⟨.ok 9, 3, [1000, 2000]⟩ ∧
    send_with_retry (R := Nat) 2 (fun _ => .error .response) =
      ⟨.error (.exhausted .response), 3, [1000, 2000]⟩ := by
  constructor
  · have h := send_with_retry_spec (R := Nat) 3
      (fun a => if a = 2 then .ok 9 else .error .timeout) 2 9 (fun _ => .timeout)
    exact (h.2.1 (by omega) (by decide) rfl).trans rfl
  · have h := send_with_retry_spec (R := Nat) 2
      (fun _ => .error .response) 0 0 (fun _ => .response)
    exact (h.2.2 (fun j _ => rfl)).trans rfl

/-! ## C7: application of the configured sanitization patterns -/

/-- C7, counterexample. With two regex-form patterns configured, the
source's sanitize_data returns from inside its loop after substituting
the first pattern, so the second pattern is never applied: the result
reflects only the first pattern, while applying every configured pattern
in order (the spec-modelled fold) gives a different string. -/
theorem sanitize_data_first_pattern_only :
    sanitize_data reSubLit "ab" none
        (some [⟨some "a", none, some "X"⟩, ⟨some "b", none, some "Y"⟩]) = "Xb" ∧
    sanitizeDataSpec reSubLit "ab" none
        [⟨some "a", none, some "X"⟩, ⟨some "b", none, some "Y"⟩] = "XY" ∧
    ("Xb" : String) ≠ "XY" :=
  ⟨rfl, rfl, by decide⟩

/-- C7, amended: on a non-empty pattern list, sanitize_data applies only
the first applicable pattern and returns at once: a leading pattern with
a non-empty regex field is substituted into the stringified value and the
remaining patterns are ignored; a leading key-form pattern (regex field
None) whose key occurs in the containing key yields "[SANITIZED]" (the
substitution is attempted with the None regex and fails into the except
clause); a leading key-form pattern whose key does not match returns the
value unchanged, again ignoring the remaining patterns; only a pattern
with both fields falsy is skipped in favour of the rest of the list. -/
theorem sanitize_data_characterization
    (reSub : String → String → String → String) (data : String)
    (dataKey : Option String) (p : SanitizePattern)
    (rest : List SanitizePattern) :
    (strTruthy p.pattern = true →
      sanitize_data reSub data dataKey (some (p :: rest)) =
        reSub (p.pattern.getD "") (replacementOf p) data) ∧
    (p.pattern = none → strTruthy p.key = true →
      (strTruthy dataKey ∧ strContains (dataKey.getD "") (p.key.getD "")) →
      sanitize_data reSub data dataKey (some (p :: rest)) = "[SANITIZED]") ∧
    (strTruthy p.pattern = false → strTruthy p.key = true →
      ¬(strTruthy dataKey ∧ strContains (dataKey.getD "") (p.key.getD "")) →
      sanitize_data reSub data dataKey (some (p :: rest)) = data) ∧
    (strTruthy p.pattern = false → strTruthy p.key = false →
      sanitize_data reSub data dataKey (some (p :: rest)) =
        sanitize_data reSub data dataKey (some rest)) := by
  refine ⟨?_, ?_, ?_, ?_⟩
  · intro h1
    simp [sanitize_data, sanitizeLoop, h1]
  · intro h1 h2 h3
    obtain ⟨hdk, hct⟩ := h3
    simp [sanitize_data, sanitizeLoop, h1, strTruthy_none, h2, hdk, hct]
  · intro h1 h2 h3
    simp [sanitize_data, sanitizeLoop, h1, h2, h3]
  · intro h1 h2
    cases rest with
    | nil => simp [sanitize_data, sanitizeLoop, h1, h2]
    | cons q qs => simp [sanitize_data, sanitizeLoop, h1, h2]

/-- C7, witness: a key-form pattern whose key matches the containing key
produces "[SANITIZED]" rather than a substitution. -/
theorem sanitize_data_characterization_witness :
    sanitize_data reSubLit "hunter2" (some "user_password")
        (some [⟨none, some "password", none⟩]) = "[SANITIZED]" := by
  have h := sanitize_data_characterization reSubLit "hunter2"
    (some "user_password") ⟨none, some "password", none⟩ []
  exact h.2.1 rfl (by decide) (by decide)

/-! ## C8: atomicity of FileStorageService.set_item -/

/-- Reading back the path just stored. -/
theorem Fs.read_store (fs : Fs) (p c : String) :
    Fs.read (Fs.store fs p c) p = some c := by
  simp [Fs.read, Fs.store]

/-- C8, counterexample. The operation trace of set_item never touches a
temporary file and contains no rename: the value is written directly to
the destination path. Consequently a run over a file that previously held
"old" passes through a state where the destination holds the truncated
document "", which is neither the complete previous value nor the
complete new one. -/
theorem set_item_not_atomic_replace :
    ¬ atomicReplaceTrace (set_item_ops "k" "v") "k.json" "v" ∧
    (runStates [("k.json", "old")] (set_item_ops "k" "v")).map
        (fun fs => Fs.read fs "k.json") =
      [some "old", some "", some "v"] := by
  constructor
  · intro h
    obtain ⟨⟨tmp, _, _, hmem⟩, _⟩ := h
    simp [set_item_ops] at hmem
  · rfl

/-- C8, amended: set_item stores the value by opening the destination
path <key>.json for writing (truncating it) and writing the value into
it directly; no temporary file and no rename are involved, the final
state holds the complete new value, and the intermediate state visible
between the truncation and the write holds the empty document. -/
theorem set_item_direct_write (key value : String) (fs0 : Fs) :
    Fs.read (runOps fs0 (set_item_ops key value)) (key ++ ".json") = some value ∧
    (runStates fs0 (set_item_ops key value)).map
        (fun fs => Fs.read fs (key ++ ".json")) =
      [Fs.read fs0 (key ++ ".json"), some "", some value] ∧
    (set_item_ops key value).all (fun op => !op.isRename) = true := by
  refine ⟨?_, ?_, rfl⟩
  · simp [runOps, set_item_ops, FsOp.apply, Fs.read_store]
  · simp [runStates, set_item_ops, FsOp.apply, Fs.read_store]

/-! ## C9: bounded persisted queue with oldest-first eviction -/

/-- The eviction loop only ever removes batches from the front: its
result is a suffix of the input queue. -/
theorem evictLoop_suffix {P : Type} (itemLen : P → Nat) (target : Nat) :
    ∀ queue : List P, List.IsSuffix (evictLoop itemLen target queue) queue := by
  intro queue
  induction queue with
  | nil => simp [evictLoop]
  | cons x xs ih =>
    by_cases h : serLen itemLen (x :: xs) > target
    · simp only [evictLoop, if_pos h]
      exact ih.trans (List.suffix_cons x xs)
    · simp only [evictLoop, if_neg h]
      exact List.suffix_refl _

/-- The eviction loop stops only once the serialized size is within the
target, or the queue has been emptied. -/
theorem evictLoop_le {P : Type} (itemLen : P → Nat) (target : Nat) :
    ∀ queue : List P, evictLoop itemLen target queue = [] ∨
      serLen itemLen (evictLoop itemLen target queue) ≤ target := by
  intro queue
  induction queue with
  | nil => left; rfl
  | cons x xs ih =>
    by_cases h : serLen itemLen (x :: xs) > target
    · simpa [evictLoop, if_pos h] using ih
    · right
      simp only [evictLoop, if_neg h]
      omega

/-- C9: after _persist_queue the written blob is at most maxStorageSize
bytes (whenever maxStorageSize can hold at least an empty queue, two
bytes), the blob is exactly the serialization of the in-memory queue that
was kept (memory and disk evict in lockstep), eviction removes whole
batches strictly oldest-first (the kept queue is a suffix of the old
one), and whenever the serialization exceeded the limit it was evicted
down to the 80 percent target or exhausted. -/
theorem persist_queue_size_bound {P : Type} (itemLen : P → Nat)
    (maxSize : Nat) (queue : List P) (h2 : 2 ≤ maxSize) :
    (persist_queue itemLen maxSize queue).2 ≤ maxSize ∧
    (persist_queue itemLen maxSize queue).2 =
      serLen itemLen (persist_queue itemLen maxSize queue).1 ∧
    List.IsSuffix (persist_queue itemLen maxSize queue).1 queue ∧
    (serLen itemLen queue > maxSize →
      (persist_queue itemLen maxSize queue).1 = [] ∨
      (persist_queue itemLen maxSize queue).2 ≤ 4 * maxSize / 5) := by
  have hdiv : 4 * maxSize / 5 ≤ maxSize := by
    calc 4 * maxSize / 5 ≤ 5 * maxSize / 5 :=
          Nat.div_le_div_right (by omega)
      _ = maxSize := Nat.mul_div_cancel_left maxSize (by norm_num)
  by_cases h : serLen itemLen queue > maxSize
  · simp only [persist_queue, if_pos h]
    refine ⟨?_, trivial, evictLoop_suffix itemLen (4 * maxSize / 5) queue, ?_⟩
    · rcases evictLoop_le itemLen (4 * maxSize / 5) queue with he | he
      · rw [he]
        simpa [serLen] using h2
      · omega
    · intro _
      exact evictLoop_le itemLen (4 * maxSize / 5) queue
  · simp only [persist_queue, if_neg h]
    exact ⟨by omega, trivial, List.suffix_refl queue, fun hc => absurd hc h⟩

/-- C9, witness: with item lengths 4 + 4 + 4 and maxStorageSize 10 the
serialized queue of size 18 exceeds the limit; the theorem yields the
bound and the eviction guarantee for the concrete run, which keeps only
the newest batch at size 6. -/
theorem persist_queue_size_bound_witness :
    (persist_queue (fun n : Nat => n) 10 [4, 4, 4]).2 ≤ 10 ∧
    ((persist_queue (fun n : Nat => n) 10 [4, 4, 4]).1 = [] ∨
      (persist_queue (fun n : Nat => n) 10 [4, 4, 4]).2 ≤ 8) := by
  have h := persist_queue_size_bound (fun n : Nat => n) 10 [4, 4, 4]
    (by norm_num)
  exact ⟨h.1, h.2.2.2 (by decide)⟩

/-! ## C10: process-wide queue manager singleton -/

/-- C10: once a queue manager exists, init_queue_manager returns it and
ignores the newly supplied dependencies: constructing a second client
reuses the first client's manager, whose queue state and whose SDKConfig
(hence the batchSize governing coalescing, and every other batching,
draining and persistence parameter) are the first client's. -/
theorem init_queue_manager_singleton {P : Type}
    (deps1 deps2 : QueueDependencies)
    (loaded1 loaded2 : List (BatchRequest P)) :
    (∀ qm : QueueManager P,
      init_queue_manager (some qm) deps2 loaded2 = (qm, some qm)) ∧
    (init_queue_manager
        (init_queue_manager (P := P) none deps1 loaded1).2 deps2 loaded2).1 =
      (init_queue_manager (P := P) none deps1 loaded1).1 ∧
    (init_queue_manager
        (init_queue_manager (P := P) none deps1 loaded1).2 deps2 loaded2).1.dependencies =
      deps1 ∧
    (init_queue_manager
        (init_queue_manager (P := P) none deps1 loaded1).2 deps2 loaded2).1.effectiveBatchSize =
      deps1.config.batchSize ∧
    (init_queue_manager
        (init_queue_manager (P := P) none deps1 loaded1).2 deps2 loaded2).1.batch_queue =
      loaded1 := by
  refine ⟨fun qm => rfl, rfl, rfl, rfl, rfl⟩

end Olakai
